import Mathlib

/-
Verification of the Project-Caesar in-car assistant core:
shallow embedding of src/agent/intent_router.py, src/agent/tool_dispatcher.py
and src/agent/state_tracker.py, followed by theorems about the embedded code.

Modelling conventions:
- Python dicts are association lists in insertion order (JObj); lookup takes
  the first matching key (keys are unique in all dicts the source builds).
- Python floats are modelled as rationals; machine-float rounding plays no
  role in any verified property.
- Wall-clock values (datetime.utcnow) are threaded as an explicit "now"
  string parameter; timestamp-only fields of log entries are omitted since
  no verified property inspects them.
- The HTTP backend is modelled as a function from attempt index to the
  outcome of that attempt (connection error, a status/body response, or
  some other transport exception).
-/

namespace Caesar

/-- JSON-like values, the universe of Python dict values exchanged by the
agent modules. -/
inductive JVal where
  | null : JVal
  | bool (b : Bool) : JVal
  | num (q : ℚ) : JVal
  | str (s : String) : JVal
  | arr (l : List JVal) : JVal
  | obj (l : List (String × JVal)) : JVal

/-- A Python dict with string keys, in insertion order. -/
abbrev JObj := List (String × JVal)

/-- First-match lookup in a dict; Python d.get(k) without default. -/
def lookupJ (o : JObj) (k : String) : Option JVal :=
  match o with
  | [] => none
  | (k2, v) :: t => if k2 = k then some v else lookupJ t k

/-- Python d.get(k, default): the default applies only when the key is absent. -/
def dgetD (o : JObj) (k : String) (d : JVal) : JVal :=
  match lookupJ o k with
  | some v => v
  | none => d

/-- Python d.get(k), returning None when the key is absent. -/
def dget (o : JObj) (k : String) : JVal :=
  dgetD o k .null

/-- Python truthiness of a value. -/
def truthy : JVal → Bool
  | .null => false
  | .bool b => b
  | .num q => if q = 0 then false else true
  | .str s => if s = "" then false else true
  | .arr l => !l.isEmpty
  | .obj l => !l.isEmpty

/-- Python x or y: returns x when x is truthy, else y. -/
def pyOr (a b : JVal) : JVal :=
  if truthy a then a else b

/-- Python float(v). Numbers and booleans convert; other values are modelled
as a conversion failure (float() raises). Parsing of numeric strings is not
modelled; no verified property feeds a string to float(). -/
def pyFloat : JVal → Option ℚ
  | .num q => some q
  | .bool b => some (if b then 1 else 0)
  | _ => none

/-- Python str(v). The rendering of numbers and containers is approximate
(no verified property inspects rendered text beyond plain strings). -/
def pyStr : JVal → String
  | .null => "None"
  | .bool b => if b then "True" else "False"
  | .num q => if q.den = 1 then toString q.num else toString q.num ++ "/" ++ toString q.den
  | .str s => s
  | .arr _ => "<list>"
  | .obj _ => "<dict>"

/-- Python v == "s": equality of a dict value against a string literal;
false when the value is not a string. -/
def jvalEqStr (v : JVal) (s : String) : Bool :=
  match v with
  | .str t => t = s
  | _ => false

/-- Coerce a dict value to a dict, as when the source immediately calls .get
on result.get("arguments", {}); non-dict values are modelled as empty. -/
def asObj : JVal → JObj
  | .obj o => o
  | _ => []

/-- Coerce a dict value to a string for use as a tool name; non-string
values match no tool-name branch, like a non-string in a Python == chain. -/
def asStr : JVal → String
  | .str s => s
  | _ => ""

/-- Substring containment on character lists: Python needle in haystack. -/
def containsSub (needle : List Char) : List Char → Bool
  | [] => needle.isEmpty
  | c :: t => needle.isPrefixOf (c :: t) || containsSub needle t

/-- Python any(word in text for word in words). -/
def containsAny (text : List Char) (words : List String) : Bool :=
  words.any (fun w => containsSub w.toList text)

/-- Python text.lower(), character by character. -/
def pyLower (s : String) : String :=
  String.mk (s.toList.map Char.toLower)

/-! Regular expressions, modelling the re.search calls of the source.
The matcher is a Brzozowski-derivative matcher over character lists. -/

/-- Regular expression syntax: empty language, empty string, a character
class given by a boolean predicate, concatenation, alternation, star. -/
inductive Rx where
  | emp : Rx
  | eps : Rx
  | cls (p : Char → Bool) : Rx
  | cat (a b : Rx) : Rx
  | alt (a b : Rx) : Rx
  | star (a : Rx) : Rx

/-- Does the regex accept the empty string. -/
def Rx.nullable : Rx → Bool
  | .emp => false
  | .eps => true
  | .cls _ => false
  | .cat a b => a.nullable && b.nullable
  | .alt a b => a.nullable || b.nullable
  | .star _ => true

/-- Smart concatenation, collapsing the empty language and empty string. -/
def Rx.catS : Rx → Rx → Rx
  | .emp, _ => .emp
  | _, .emp => .emp
  | .eps, b => b
  | a, .eps => a
  | a, b => .cat a b

/-- Smart alternation, collapsing the empty language. -/
def Rx.altS : Rx → Rx → Rx
  | .emp, b => b
  | a, .emp => a
  | a, b => .alt a b

/-- Brzozowski derivative of a regex by one character. -/
def Rx.deriv : Rx → Char → Rx
  | .emp, _ => .emp
  | .eps, _ => .emp
  | .cls p, c => if p c then .eps else .emp
  | .cat a b, c =>
      if a.nullable then Rx.altS (Rx.catS (a.deriv c) b) (b.deriv c)
      else Rx.catS (a.deriv c) b
  | .alt a b, c => Rx.altS (a.deriv c) (b.deriv c)
  | .star a, c => Rx.catS (a.deriv c) (.star a)

/-- Full-string match of a regex. -/
def Rx.rmatch (r : Rx) (s : List Char) : Bool :=
  (s.foldl Rx.deriv r).nullable

/-- Literal string regex. -/
def Rx.lit (s : String) : Rx :=
  s.toList.foldr (fun c r => .cat (.cls (fun x => x == c)) r) .eps

/-- Alternation of a list of regexes, in order. -/
def Rx.alts : List Rx → Rx
  | [] => .emp
  | [r] => r
  | r :: rs => .alt r (Rx.alts rs)

/-- Alternation of literal words, as in a (w1|w2|...) group. -/
def Rx.oneOf (ws : List String) : Rx :=
  Rx.alts (ws.map Rx.lit)

/-- The regex dot: any character except a newline. -/
def Rx.dot : Rx := .cls (fun c => !(c == '\n'))

/-- The .* fragment. -/
def Rx.dotstar : Rx := .star Rx.dot

/-- An optional fragment, as produced by a trailing question mark. -/
def Rx.optR (r : Rx) : Rx := .alt r .eps

/-- A whitespace character, the regex class backslash-s. -/
def Rx.wsp : Rx := .cls Char.isWhitespace

/-- A digit character, the regex class backslash-d. -/
def Rx.digit : Rx := .cls Char.isDigit

/-- One or more repetitions. -/
def Rx.plusR (r : Rx) : Rx := .cat r (.star r)

/-- re.search: does the regex match anywhere in the string. -/
def Rx.rsearch (r : Rx) (s : List Char) : Bool :=
  Rx.rmatch (.cat Rx.dotstar (.cat r Rx.dotstar)) s

/-- Does the regex match some prefix of the string. -/
def Rx.headMatch (r : Rx) (s : List Char) : Bool :=
  Rx.rmatch (.cat r Rx.dotstar) s

/-! Intent router (src/agent/intent_router.py). -/

/-- The IntentType enum of intent_router.py. -/
inductive IntentType where
  | temperature_control
  | music_control
  | window_control
  | seat_adjustment
  | weather_inquiry
  | location_request
  | navigation
  | conversation
  | simulation_control
  | unknown
deriving DecidableEq, Repr

/-- The self.intent_patterns table, in declaration order, with each source
regex translated pattern by pattern. -/
def intentPatterns : List (IntentType × List Rx) := [
  (.temperature_control, [
    Rx.alts [Rx.lit "cold", Rx.lit "hot", Rx.lit "warm", Rx.lit "cool",
      Rx.lit "temperature", Rx.cat (Rx.lit "degree") (Rx.optR (Rx.lit "s")),
      Rx.lit "heat", Rx.lit "ac", Rx.lit "air conditioning"],
    Rx.cat (Rx.oneOf ["turn up", "turn down", "increase", "decrease", "adjust"])
      (Rx.cat Rx.dotstar (Rx.lit "temperature")),
    Rx.oneOf ["too hot", "too cold", "freezing", "boiling"],
    Rx.oneOf ["warmer", "cooler", "hotter", "colder"]]),
  (.music_control, [
    Rx.oneOf ["play", "stop", "pause", "music", "song", "track", "album", "artist"],
    Rx.cat (Rx.oneOf ["turn on", "turn off", "start", "next", "previous"])
      (Rx.cat Rx.dotstar (Rx.lit "music")),
    Rx.oneOf ["spotify", "sound", "audio", "volume"],
    Rx.cat (Rx.oneOf ["listen to", "hear", "put on"]) (Rx.cat Rx.dotstar (Rx.lit "music"))]),
  (.window_control, [
    Rx.oneOf ["window", "windows", "open", "close", "roll up", "roll down"],
    Rx.oneOf ["fresh air", "ventilation", "breeze"],
    Rx.oneOf ["stuffy", "air flow"]]),
  (.seat_adjustment, [
    Rx.oneOf ["seat", "chair", "position", "comfortable", "adjust"],
    Rx.oneOf ["forward", "back", "up", "down", "recline"],
    Rx.oneOf ["uncomfortable", "sore", "posture"]]),
  (.weather_inquiry, [
    Rx.oneOf ["weather", "forecast", "rain", "sunny", "cloudy", "temperature outside"],
    Rx.alts [Rx.cat (Rx.lit "what") (Rx.cat Rx.dotstar (Rx.lit "like outside")),
      Rx.cat (Rx.lit "how") (Rx.cat Rx.dotstar (Rx.lit "weather"))],
    Rx.oneOf ["will it rain", "is it sunny", "temperature"]]),
  (.location_request, [
    Rx.oneOf ["where are we", "location", "position", "gps"],
    Rx.alts [Rx.cat (Rx.lit "what") (Rx.cat Rx.dotstar (Rx.lit "place")),
      Rx.cat (Rx.lit "which") (Rx.cat Rx.dotstar (Rx.lit "area")),
      Rx.lit "current location"]]),
  (.navigation, [
    Rx.alts [Rx.cat (Rx.lit "direction") (Rx.optR (Rx.lit "s")), Rx.lit "navigate",
      Rx.lit "route", Rx.lit "way to", Rx.lit "go to", Rx.lit "destination"],
    Rx.alts [Rx.lit "how to get", Rx.cat (Rx.lit "find") (Rx.cat Rx.dotstar (Rx.lit "way")),
      Rx.lit "drive to"],
    Rx.oneOf ["reroute", "alternative", "shortcut"]]),
  (.simulation_control, [
    Rx.cat (Rx.oneOf ["start", "stop", "pause", "reset", "restart"])
      (Rx.cat Rx.dotstar (Rx.lit "simulation")),
    Rx.cat (Rx.oneOf ["begin", "end", "exit"]) (Rx.cat Rx.dotstar (Rx.lit "session")),
    Rx.cat (Rx.oneOf ["save", "load"]) (Rx.cat Rx.dotstar (Rx.lit "state"))]),
  (.conversation, [
    Rx.oneOf ["hello", "hi", "hey", "good morning", "good evening"],
    Rx.oneOf ["how are you", "thanks", "thank you", "please"],
    Rx.oneOf ["tell me", "explain", "what", "why", "when", "where", "how"]])]

/-- The self.intent_tool_mapping table. -/
def intentToolMapping : IntentType → List String
  | .temperature_control => ["set_temperature"]
  | .music_control => ["set_music", "play_spotify"]
  | .window_control => ["open_window"]
  | .seat_adjustment => ["adjust_seat"]
  | .weather_inquiry => ["get_weather"]
  | .location_request => ["get_location"]
  | .navigation => ["reroute", "get_location"]
  | .simulation_control => ["start_simulation", "pause_simulation", "reset_simulation", "log_event"]
  | .conversation => ["talk", "remember", "ask_confirm", "summarize"]
  | .unknown => ["talk"]

/-- The regex of the temperature value extraction in _extract_parameters:
digits, optional whitespace, then degree(s) or a degree sign. -/
def tempValueRx : Rx :=
  Rx.cat (Rx.plusR Rx.digit)
    (Rx.cat (Rx.star Rx.wsp)
      (Rx.alts [Rx.cat (Rx.lit "degree") (Rx.optR (Rx.lit "s")), Rx.lit "°"]))

/-- Numeric value of the leading digit run of a character list. -/
def digitRunVal : List Char → Nat → Nat
  | [], acc => acc
  | c :: t, acc =>
      if c.isDigit then digitRunVal t (acc * 10 + (c.toNat - '0'.toNat)) else acc

/-- The value captured by group 1 of the temperature regex: the digit run at
the leftmost position where the whole regex matches. -/
def extractTempValue : List Char → ℚ
  | [] => 0
  | c :: t =>
      if Rx.headMatch tempValueRx (c :: t) then (digitRunVal (c :: t) 0 : ℚ)
      else extractTempValue t

/-- Index of the first occurrence of a needle, if any. -/
def findSubIdx (needle : List Char) : List Char → Option Nat
  | [] => if needle.isEmpty then some 0 else none
  | c :: t =>
      if needle.isPrefixOf (c :: t) then some 0
      else match findSubIdx needle t with
        | some i => some (i + 1)
        | none => none

/-- Python str.strip(): drop surrounding whitespace. -/
def pyStrip (s : List Char) : List Char :=
  ((s.dropWhile Char.isWhitespace).reverse.dropWhile Char.isWhitespace).reverse

/-- The track captured by the play regex of the music branch. The lazy
capture between "play" and an optional trailing " by " or end of string is
modelled directly; it approximates capture-group semantics (no verified
property depends on this branch). -/
def playTrackCapture (s : List Char) : Option (List Char) :=
  match findSubIdx "play".toList s with
  | none => none
  | some i =>
      let rest := (s.drop (i + 4)).dropWhile Char.isWhitespace
      if rest.length = (s.drop (i + 4)).length then none  -- the regex needs whitespace after play
      else match findSubIdx " by ".toList rest with
        | some j => some (pyStrip (rest.take j))
        | none => some (pyStrip rest)

/-- The destination captured by the navigation regex: the text after the
first occurrence of "to" followed by whitespace, trimmed. Approximates the
source regex capture (no verified property depends on this branch). -/
def destinationCapture (s : List Char) : Option (List Char) :=
  match s with
  | [] => none
  | c :: t =>
      if ("to ".toList.isPrefixOf (c :: t)) then some (pyStrip (t.drop 2))
      else destinationCapture t

/-- The _extract_parameters method: intent-specific parameter extraction
from the lower-cased input. -/
def extractParameters (userInput : String) (intentType : IntentType) : JObj :=
  let lower := (pyLower userInput).toList
  match intentType with
  | .temperature_control =>
      if Rx.rsearch tempValueRx lower then
        [("temperature", .num (extractTempValue lower))]
      else if containsAny lower ["cold", "cool", "cooler"] then
        [("direction", .str "decrease")]
      else if containsAny lower ["hot", "warm", "warmer"] then
        [("direction", .str "increase")]
      else []
  | .music_control =>
      let p1 : JObj :=
        if containsSub "play".toList lower then
          match playTrackCapture lower with
          | some tr => [("track", .str (String.mk tr))]
          | none => []
        else []
      let genres := ["rock", "pop", "jazz", "classical", "electronic", "folk", "country"]
      match genres.find? (fun g => containsSub g.toList lower) with
      | some g => p1 ++ [("genre", .str g)]
      | none => p1
  | .window_control =>
      let side : JObj :=
        if containsSub "left".toList lower then [("side", .str "left")]
        else if containsSub "right".toList lower then [("side", .str "right")]
        else [("side", .str "both")]
      if containsAny lower ["open", "down", "fresh air"] then
        side ++ [("action", .str "open")]
      else if containsAny lower ["close", "up"] then
        side ++ [("action", .str "close")]
      else side
  | .seat_adjustment =>
      if containsSub "forward".toList lower then [("position", .str "forward")]
      else if containsSub "back".toList lower then [("position", .str "back")]
      else if containsSub "recline".toList lower then [("position", .str "reclined")]
      else if containsSub "up".toList lower then [("position", .str "up")]
      else []
  | .navigation =>
      match destinationCapture lower with
      | some d => [("destination", .str (String.mk d))]
      | none => []
  | _ => []

/-- The _predict_action method: a finer-grained action tag from keyword
checks independent of the parameter extractor. -/
def predictAction (userInput : String) (intentType : IntentType) : String :=
  let lower := (pyLower userInput).toList
  match intentType with
  | .temperature_control =>
      if containsAny lower ["cold", "cool"] then "increase_temperature"
      else if containsAny lower ["hot", "warm"] then "decrease_temperature"
      else "adjust_temperature"
  | .music_control =>
      if containsSub "play".toList lower then "play_music"
      else if containsAny lower ["stop", "pause"] then "stop_music"
      else "control_music"
  | .window_control =>
      if containsSub "open".toList lower then "open_window"
      else if containsSub "close".toList lower then "close_window"
      else "control_window"
  | .weather_inquiry => "get_weather_info"
  | .location_request => "get_current_location"
  | .navigation => "provide_navigation"
  | _ => "general_conversation"

/-- The IntentResult dataclass. -/
structure IntentResult where
  intent_type : IntentType
  confidence : ℚ
  suggested_tools : List String
  extracted_parameters : JObj
  predicted_action : String

/-- The intent_scores dict built by _classify_intent: for each intent the
number of its patterns that match anywhere in the lower-cased input,
normalized by the number of patterns; intents with no match are absent. -/
def intentScores (lower : List Char) : List (IntentType × ℚ) :=
  intentPatterns.filterMap (fun p =>
    let m := p.2.countP (fun rx => Rx.rsearch rx lower)
    if m > 0 then some (p.1, (m : ℚ) / (p.2.length : ℚ)) else none)

/-- The _classify_intent method: the intent with the highest score wins,
ties broken by first declaration order (Python max over dict insertion
order keeps the first strictly-greatest entry), falling back to
conversation with confidence 0.1 when no pattern of any intent matches. -/
def classifyIntent (userInput : String) : IntentResult :=
  let lower := (pyLower userInput).toList
  let scores := intentScores lower
  let best : IntentType × ℚ :=
    match scores with
    | [] => (.conversation, 1/10)
    | x :: xs => xs.foldl (fun acc y => if y.2 > acc.2 then y else acc) x
  { intent_type := best.1
    confidence := best.2
    suggested_tools := intentToolMapping best.1
    extracted_parameters := []
    predicted_action := predictAction userInput best.1 }

/-! Tool dispatcher (src/agent/tool_dispatcher.py). -/

/-- Configuration of one MCP server. -/
structure ServerCfg where
  name : String
  host : String
  port : Nat
  tools : List String

/-- The self.mcp_servers table with its default host and port values. -/
def mcpServers : List ServerCfg := [
  { name := "sim_actions", host := "localhost", port := 8001,
    tools := ["set_temperature", "set_music", "open_window", "adjust_seat"] },
  { name := "sim_session", host := "localhost", port := 8002,
    tools := ["start_simulation", "pause_simulation", "reset_simulation", "log_event"] },
  { name := "conversation", host := "localhost", port := 8003,
    tools := ["talk", "remember", "ask_confirm", "summarize"] },
  { name := "external", host := "localhost", port := 8004,
    tools := ["get_weather", "get_location", "play_spotify", "reroute"] }]

/-- First-match lookup in a string-keyed association list. -/
def lookupStr (m : List (String × String)) (k : String) : Option String :=
  match m with
  | [] => none
  | (k2, v) :: t => if k2 = k then some v else lookupStr t k

/-- The self.tool_server_map built in __init__ by iterating the servers and
their tool lists in order. -/
def toolServerMap : List (String × String) :=
  mcpServers.foldl (fun acc s => acc ++ s.tools.map (fun t => (t, s.name))) []

/-- The mock_responses table of _handle_offline_server, entry by entry.
Fields derived from datetime.utcnow() take the threaded "now" value. -/
def mockResponses (now : String) (parameters : JObj) : List (String × JObj) := [
  ("set_temperature", [
    ("success", .bool true),
    ("message", .str ("Temperature set to " ++ pyStr (dgetD parameters "temperature" (.num 22)) ++ "°C")),
    ("current_temperature", dgetD parameters "temperature" (.num 22)),
    ("mock", .bool true)]),
  ("set_music", [
    ("success", .bool true),
    ("message", .str ("Now playing: " ++ pyStr (dgetD parameters "track" (.str "Unknown track")))),
    ("current_track", dgetD parameters "track" (.str "Unknown track")),
    ("mock", .bool true)]),
  ("open_window", [
    ("success", .bool true),
    ("message", .str ("Window on " ++ pyStr (dgetD parameters "side" (.str "both")) ++ " side(s) opened")),
    ("window_state", .str (pyStr (dgetD parameters "side" (.str "both")) ++ "_open")),
    ("mock", .bool true)]),
  ("adjust_seat", [
    ("success", .bool true),
    ("message", .str ("Seat adjusted to " ++ pyStr (dgetD parameters "position" (.str "comfortable")) ++ " position")),
    ("seat_position", dgetD parameters "position" (.str "comfortable")),
    ("mock", .bool true)]),
  ("get_weather", [
    ("success", .bool true),
    ("location", dgetD parameters "location" (.str "Yalova, Turkey")),
    ("temperature", .num 18),
    ("condition", .str "Partly cloudy"),
    ("humidity", .num 65),
    ("wind_speed", .num 12),
    ("mock", .bool true)]),
  ("get_location", [
    ("success", .bool true),
    ("latitude", .num (406553/10000)),
    ("longitude", .num (292769/10000)),
    ("location", .str "Yalova, Turkey"),
    ("address", .str "Rural area near Yalova"),
    ("mock", .bool true)]),
  ("play_spotify", [
    ("success", .bool true),
    ("message", .str ("Playing " ++ pyStr (dgetD parameters "track" (.str "music")) ++ " on Spotify")),
    ("track", dgetD parameters "track" (.str "Unknown track")),
    ("spotify_url", .str "spotify:track:mock"),
    ("mock", .bool true)]),
  ("reroute", [
    ("success", .bool true),
    ("destination", dgetD parameters "destination" (.str "Unknown")),
    ("estimated_time", .str "15 minutes"),
    ("distance", .str "8.5 km"),
    ("route", .str "Via rural roads"),
    ("mock", .bool true)]),
  ("start_simulation", [
    ("success", .bool true),
    ("message", .str "Simulation started"),
    ("simulation_id", .str ("sim_" ++ now)),
    ("status", .str "running"),
    ("mock", .bool true)]),
  ("pause_simulation", [
    ("success", .bool true),
    ("message", .str "Simulation paused"),
    ("status", .str "paused"),
    ("mock", .bool true)]),
  ("reset_simulation", [
    ("success", .bool true),
    ("message", .str "Simulation reset"),
    ("status", .str "reset"),
    ("mock", .bool true)]),
  ("log_event", [
    ("success", .bool true),
    ("message", .str "Event logged"),
    ("event_id", .str ("event_" ++ now)),
    ("mock", .bool true)]),
  ("talk", [
    ("success", .bool true),
    ("message", .str "Message processed"),
    ("response", .str "I understand."),
    ("mock", .bool true)]),
  ("remember", [
    ("success", .bool true),
    ("message", .str "Preference saved"),
    ("key", dgetD parameters "key" (.str "unknown")),
    ("value", dgetD parameters "value" (.str "unknown")),
    ("mock", .bool true)]),
  ("ask_confirm", [
    ("success", .bool true),
    ("message", .str "Confirmation requested"),
    ("prompt", dgetD parameters "prompt" (.str "Please confirm")),
    ("mock", .bool true)]),
  ("summarize", [
    ("success", .bool true),
    ("message", .str "Context summarized"),
    ("summary", .str "Recent activities include conversation and car adjustments."),
    ("mock", .bool true)])]

/-- First-match lookup of a mock response by tool name. -/
def lookupMock (m : List (String × JObj)) (k : String) : Option JObj :=
  match m with
  | [] => none
  | (k2, v) :: t => if k2 = k then some v else lookupMock t k

/-- The _handle_offline_server method: the mock table keyed by tool name,
with the not-available fallback entry. -/
def handleOfflineServer (now : String) (toolName : String) (parameters : JObj) : JObj :=
  match lookupMock (mockResponses now parameters) toolName with
  | some r => r
  | none => [
      ("success", .bool false),
      ("error", .str ("Mock response not available for " ++ toolName)),
      ("mock", .bool true)]

/-- Outcome of one HTTP attempt against the backend. -/
inductive Attempt where
  | connectError : Attempt
  | response (status : Nat) (body : JObj) : Attempt
  | otherError (msg : String) : Attempt

/-- What _make_http_request produces: a returned value (the JSON body, a
mock body, or Python None when the attempt loop falls through), or a raised
exception carried as a message. -/
inductive HttpOutcome where
  | ok (body : Option JObj) : HttpOutcome
  | err (msg : String) : HttpOutcome

/-- Message of the httpx HTTPStatusError raised by raise_for_status. The
exact text is approximate; no verified property inspects it. -/
def statusErrorMsg (status : Nat) : String :=
  "HTTP status error " ++ toString status

/-- The retry loop of _make_http_request. The first argument counts the
attempts still available (fuel = 1 means this is the final attempt), the
second is the index of the current attempt; the result carries the number
of HTTP attempts that were made. A status of exactly 200 returns the body;
404 returns the mock table; any other 2xx passes raise_for_status silently
and the loop moves on; other statuses raise, re-raised on the final
attempt; connection errors retry and degrade to the mock table on the final
attempt. A loop that runs out of attempts without returning yields Python
None. -/
def httpLoop (now toolName : String) (parameters : JObj) (net : Nat → Attempt) :
    Nat → Nat → HttpOutcome × Nat
  | 0, i => (.ok none, i)
  | fuel + 1, i =>
      match net i with
      | .response s body =>
          if s = 200 then (.ok (some body), i + 1)
          else if s = 404 then (.ok (some (handleOfflineServer now toolName parameters)), i + 1)
          else if 200 ≤ s ∧ s < 300 then httpLoop now toolName parameters net fuel (i + 1)
          else if fuel = 0 then (.err (statusErrorMsg s), i + 1)
          else httpLoop now toolName parameters net fuel (i + 1)
      | .connectError =>
          if fuel = 0 then (.ok (some (handleOfflineServer now toolName parameters)), i + 1)
          else httpLoop now toolName parameters net fuel (i + 1)
      | .otherError m =>
          if fuel = 0 then (.err m, i + 1)
          else httpLoop now toolName parameters net fuel (i + 1)

/-- The _make_http_request method with its configurable retry count
(RETRY_ATTEMPTS, default 3). -/
def makeHttpRequest (now toolName : String) (parameters : JObj) (net : Nat → Attempt)
    (maxRetries : Nat) : HttpOutcome × Nat :=
  httpLoop now toolName parameters net maxRetries 0

/-- The error dict returned by the except clause of execute_tool. -/
def executeErrorDict (msg toolName : String) (parameters : JObj) : JObj := [
  ("success", .bool false),
  ("error", .str msg),
  ("tool", .str toolName),
  ("parameters", .obj parameters)]

/-- Message of the ValueError raised for an unmapped tool name. The single
quotes that the source puts around the tool name are omitted. -/
def toolNotFoundMsg (toolName : String) : String :=
  "Tool " ++ toolName ++ " not found in any MCP server"

/-- The execute_tool method. Returns the Python return value (None when the
retry loop falls through) together with the number of HTTP attempts made.
An unmapped tool name raises ValueError, caught by the except clause, with
no HTTP request attempted; exceptions from _make_http_request are caught by
the same clause. -/
def executeTool (now : String) (maxRetries : Nat) (net : Nat → Attempt)
    (toolName : String) (parameters : JObj) : Option JObj × Nat :=
  match lookupStr toolServerMap toolName with
  | none => (some (executeErrorDict (toolNotFoundMsg toolName) toolName parameters), 0)
  | some _ =>
      match makeHttpRequest now toolName parameters net maxRetries with
      | (.ok b, n) => (b, n)
      | (.err e, n) => (some (executeErrorDict e toolName parameters), n)

/-! State tracker (src/agent/state_tracker.py). -/

/-- The EnvironmentState dataclass with its default values. Fields that the
source only ever assigns through float() are rationals; fields assigned
verbatim from tool arguments or results hold arbitrary dict values. -/
structure EnvironmentState where
  temperature : ℚ := 22
  music_playing : Bool := false
  current_track : Option JVal := none
  windows_left : JVal := .str "closed"
  windows_right : JVal := .str "closed"
  seat_position : JVal := .str "normal"
  location : JVal := .str "Yalova, Turkey"
  latitude : JVal := .num (406553/10000)
  longitude : JVal := .num (292769/10000)
  speed : ℚ := 0
  weather_condition : JVal := .str "unknown"
  weather_temperature : JVal := .num 18
  time_of_day : JVal := .str "day"

/-- The UserPreferences dataclass with its default values. -/
structure UserPreferences where
  preferred_temperature : ℚ := 22
  preferred_music_genre : Option String := none
  preferred_artists : List String := []
  language : String := "en"
  tts_enabled : Bool := true
  voice_rate : ℚ := 200

/-- The _update_state_from_tool method: per-tool update of the environment
state, returning the new state and the state_updated flag. Exceptions
raised inside the body (a failing float() conversion) are caught and leave
the flag False. -/
def updateStateFromTool (toolName : String) (args result : JObj)
    (st : EnvironmentState) : EnvironmentState × Bool :=
  if toolName = "set_temperature" then
    let newTemp := pyOr (dget args "temperature") (dget result "current_temperature")
    if truthy newTemp then
      match pyFloat newTemp with
      | some q => ({ st with temperature := q }, true)
      | none => (st, false)
    else (st, false)
  else if toolName = "set_music" ∨ toolName = "play_spotify" then
    let track := pyOr (dget args "track") (dget result "track")
    if truthy track then
      ({ st with current_track := some track, music_playing := true }, true)
    else (st, false)
  else if toolName = "open_window" then
    let side := dgetD args "side" (.str "both")
    let action := dgetD args "action" (.str "open")
    let st1 := if jvalEqStr side "left" || jvalEqStr side "both" then
        { st with windows_left := action } else st
    let st2 := if jvalEqStr side "right" || jvalEqStr side "both" then
        { st1 with windows_right := action } else st1
    (st2, true)
  else if toolName = "adjust_seat" then
    let position := dget args "position"
    if truthy position then ({ st with seat_position := position }, true)
    else (st, false)
  else if toolName = "get_weather" then
    let st1 := if truthy (dget result "temperature") then
        { st with weather_temperature := dget result "temperature" } else st
    let st2 := if truthy (dget result "condition") then
        { st1 with weather_condition := dget result "condition" } else st1
    (st2, true)
  else if toolName = "get_location" then
    let st1 := if truthy (dget result "latitude") then
        { st with latitude := dget result "latitude" } else st
    let st2 := if truthy (dget result "longitude") then
        { st1 with longitude := dget result "longitude" } else st1
    let st3 := if truthy (dget result "location") then
        { st2 with location := dget result "location" } else st2
    (st3, true)
  else (st, false)

/-- The to_dict / asdict serialization of EnvironmentState, key order as in
the dataclass. -/
def envToDict (e : EnvironmentState) : JObj := [
  ("temperature", .num e.temperature),
  ("music_playing", .bool e.music_playing),
  ("current_track", match e.current_track with | some v => v | none => .null),
  ("windows_left", e.windows_left),
  ("windows_right", e.windows_right),
  ("seat_position", e.seat_position),
  ("location", e.location),
  ("latitude", e.latitude),
  ("longitude", e.longitude),
  ("speed", .num e.speed),
  ("weather_condition", e.weather_condition),
  ("weather_temperature", e.weather_temperature),
  ("time_of_day", e.time_of_day)]

/-- The asdict serialization of UserPreferences. -/
def prefsToDict (p : UserPreferences) : JObj := [
  ("preferred_temperature", .num p.preferred_temperature),
  ("preferred_music_genre", match p.preferred_music_genre with | some s => .str s | none => .null),
  ("preferred_artists", .arr (p.preferred_artists.map .str)),
  ("language", .str p.language),
  ("tts_enabled", .bool p.tts_enabled),
  ("voice_rate", .num p.voice_rate)]

/-- One entry of the context history: either the interaction record that
update_context appends, or the tagged record that remember_preference
appends for an unknown key. Timestamp fields are omitted. -/
inductive HEntry where
  | interaction (user_input agent_response : String) (tool_results : List JObj)
      (state_snapshot : JObj) : HEntry
  | preference (key : String) (value : JVal) : HEntry

/-- The persisted state file: the JSON object written by _save_state, minus
the saved_at timestamp. -/
structure SaveData where
  environment : JObj
  preferences : JObj
  context_history : List HEntry

/-- The StateTracker object: environment, preferences, context history, the
configured history cap (default 100), and the last written state file. -/
structure Tracker where
  environment : EnvironmentState := {}
  preferences : UserPreferences := {}
  history : List HEntry := []
  maxHistorySize : Nat := 100
  savedFile : Option SaveData := none

/-- The _save_state method as a pure snapshot: the last 50 history entries
are persisted. -/
def saveData (t : Tracker) : SaveData :=
  { environment := envToDict t.environment
    preferences := prefsToDict t.preferences
    context_history := t.history.drop (t.history.length - 50) }

/-- Write the state file, as the await self._save_state() calls do. -/
def doSave (t : Tracker) : Tracker :=
  { t with savedFile := some (saveData t) }

/-- The update_context method: fold the successful tool results into the
environment (state_updated is or-ed across results), append one interaction
entry, trim the history to the cap dropping the oldest entries, and save
when the state changed. -/
def updateContext (t : Tracker) (userInput agentResponse : String)
    (toolResults : List JObj) : Tracker × Bool :=
  let step := fun (acc : EnvironmentState × Bool) (r : JObj) =>
    if truthy (dget r "success") then
      let u := updateStateFromTool (asStr (dget r "tool")) (asObj (dgetD r "arguments" (.obj [])))
        (asObj (dgetD r "result" (.obj []))) acc.1
      (u.1, acc.2 || u.2)
    else acc
  let envUpd := toolResults.foldl step (t.environment, false)
  let entry := HEntry.interaction userInput agentResponse toolResults (envToDict envUpd.1)
  let hist := t.history ++ [entry]
  let hist := if hist.length > t.maxHistorySize then
      hist.drop (hist.length - t.maxHistorySize) else hist
  let t1 := { t with environment := envUpd.1, history := hist }
  let t2 := if envUpd.2 then doSave t1 else t1
  (t2, envUpd.2)

/-- The remember_preference method: known keys update UserPreferences, an
unknown key is appended to the context history without trimming; every
successful branch saves the state and returns True. A failing float()
conversion for preferred_temperature is caught and returns False. -/
def rememberPreference (t : Tracker) (key : String) (value : JVal) : Tracker × Bool :=
  if key = "preferred_temperature" then
    match pyFloat value with
    | some q =>
        (doSave { t with preferences := { t.preferences with preferred_temperature := q } }, true)
    | none => (t, false)
  else if key = "preferred_music_genre" then
    (doSave { t with preferences := { t.preferences with preferred_music_genre := some (pyStr value) } }, true)
  else if key = "preferred_artist" then
    let arts := t.preferences.preferred_artists
    let t1 := if arts.any (fun s => jvalEqStr value s) then t
      else { t with preferences := { t.preferences with preferred_artists := arts ++ [pyStr value] } }
    (doSave t1, true)
  else if key = "language" then
    (doSave { t with preferences := { t.preferences with language := pyStr value } }, true)
  else if key = "tts_enabled" then
    (doSave { t with preferences := { t.preferences with tts_enabled := truthy value } }, true)
  else
    (doSave { t with history := t.history ++ [HEntry.preference key value] }, true)

/-- Decode a dict value into the typed temperature-like fields, as the
EnvironmentState(**env_data) constructor receives them. -/
def asFloatField : JVal → Option ℚ
  | .num q => some q
  | _ => none

/-- Decode a boolean field. -/
def asBoolField : JVal → Option Bool
  | .bool b => some b
  | _ => none

/-- Decode the Optional current_track field: JSON null becomes None. -/
def asTrackField : JVal → Option (Option JVal)
  | .null => some none
  | v => some (some v)

/-- Decode the Optional preferred_music_genre field. -/
def asGenreField : JVal → Option (Option String)
  | .null => some none
  | .str s => some (some s)
  | _ => none

/-- Decode a JSON array of strings element by element. -/
def decodeStrList : List JVal → Option (List String)
  | [] => some []
  | .str s :: t =>
      match decodeStrList t with
      | some l => some (s :: l)
      | none => none
  | _ => none

/-- Decode the preferred_artists list field. -/
def asArtistsField : JVal → Option (List String)
  | .arr l => decodeStrList l
  | _ => none

/-- Decode a string field. -/
def asStrField : JVal → Option String
  | .str s => some s
  | _ => none

/-- The keys EnvironmentState accepts; any other key makes the constructor
raise TypeError. -/
def envKeys : List String := ["temperature", "music_playing", "current_track",
  "windows_left", "windows_right", "seat_position", "location", "latitude",
  "longitude", "speed", "weather_condition", "weather_temperature", "time_of_day"]

/-- EnvironmentState(**env_data): every present key must decode to its
field type, missing keys take the dataclass default, unknown keys fail. -/
def envFromDict (o : JObj) : Option EnvironmentState :=
  if o.all (fun kv => envKeys.contains kv.1) then do
    let temperature ← asFloatField (dgetD o "temperature" (.num 22))
    let music_playing ← asBoolField (dgetD o "music_playing" (.bool false))
    let current_track ← asTrackField (dgetD o "current_track" .null)
    let speed ← asFloatField (dgetD o "speed" (.num 0))
    some { temperature := temperature
           music_playing := music_playing
           current_track := current_track
           windows_left := dgetD o "windows_left" (.str "closed")
           windows_right := dgetD o "windows_right" (.str "closed")
           seat_position := dgetD o "seat_position" (.str "normal")
           location := dgetD o "location" (.str "Yalova, Turkey")
           latitude := dgetD o "latitude" (.num (406553/10000))
           longitude := dgetD o "longitude" (.num (292769/10000))
           speed := speed
           weather_condition := dgetD o "weather_condition" (.str "unknown")
           weather_temperature := dgetD o "weather_temperature" (.num 18)
           time_of_day := dgetD o "time_of_day" (.str "day") }
  else none

/-- The keys UserPreferences accepts. -/
def prefKeys : List String := ["preferred_temperature", "preferred_music_genre",
  "preferred_artists", "language", "tts_enabled", "voice_rate"]

/-- UserPreferences(**pref_data). -/
def prefsFromDict (o : JObj) : Option UserPreferences :=
  if o.all (fun kv => prefKeys.contains kv.1) then do
    let preferred_temperature ← asFloatField (dgetD o "preferred_temperature" (.num 22))
    let preferred_music_genre ← asGenreField (dgetD o "preferred_music_genre" .null)
    let preferred_artists ← asArtistsField (dgetD o "preferred_artists" (.arr []))
    let language ← asStrField (dgetD o "language" (.str "en"))
    let tts_enabled ← asBoolField (dgetD o "tts_enabled" (.bool true))
    let voice_rate ← asFloatField (dgetD o "voice_rate" (.num 200))
    some { preferred_temperature := preferred_temperature
           preferred_music_genre := preferred_music_genre
           preferred_artists := preferred_artists
           language := language
           tts_enabled := tts_enabled
           voice_rate := voice_rate }
  else none

/-- The _load_state method applied to parsed file data: the environment is
loaded first, then the preferences, then the history; a constructor that
raises aborts the remaining assignments (the exception is caught and the
tracker keeps whatever was assigned so far). -/
def loadState (d : SaveData) (t : Tracker) : Tracker :=
  match envFromDict d.environment with
  | none => t
  | some e =>
      match prefsFromDict d.preferences with
      | none => { t with environment := e }
      | some p => { t with environment := e, preferences := p, history := d.context_history }

/-- One state-store operation, for reasoning about operation sequences. -/
inductive Op where
  | update (userInput agentResponse : String) (toolResults : List JObj) : Op
  | remember (key : String) (value : JVal) : Op

/-- Apply one operation to the tracker. -/
def stepOp (t : Tracker) : Op → Tracker
  | .update u a r => (updateContext t u a r).1
  | .remember k v => (rememberPreference t k v).1

/-- Apply a sequence of operations in order. -/
def applyOps (t : Tracker) (ops : List Op) : Tracker :=
  ops.foldl stepOp t

/-! Concrete backend behaviors used by witnesses and counterexamples. -/

/-- A backend whose connection fails on every attempt. -/
def netDown : Nat → Attempt := fun _ => .connectError

/-- A backend answering 200 with a fixed JSON body on every attempt. -/
def net200 : Nat → Attempt := fun _ => .response 200 [("ok", .bool true)]

/-- A backend answering 404 on every attempt. -/
def net404 : Nat → Attempt := fun _ => .response 404 []

/-- A backend answering 500 on every attempt. -/
def net500 : Nat → Attempt := fun _ => .response 500 []

/-- A backend answering 201 (a 2xx status other than 200) with a fixed JSON
body on every attempt. -/
def net201 : Nat → Attempt := fun _ => .response 201 [("ok", .bool true)]

/-- Membership of a value in the documented windows enum of the
EnvironmentState dataclass: open, closed or partial. -/
def windowEnumOK (v : JVal) : Bool :=
  jvalEqStr v "open" || jvalEqStr v "closed" || jvalEqStr v "partial"

/-- A concrete populated state store used by the round-trip witness. -/
def sampleTracker : Tracker :=
  { environment :=
      { temperature := 25
        current_track := some (JVal.str "road song")
        windows_left := JVal.str "open" }
    preferences :=
      { preferred_temperature := 23
        preferred_music_genre := some "jazz"
        preferred_artists := ["artist a"] }
    history := []
    maxHistorySize := 100 }

/-- The interaction entry appended by a context update carrying the given
user input, an empty agent response, no tool results, and the default state
snapshot. -/
def updEntry (s : String) : HEntry :=
  HEntry.interaction s "" [] (envToDict {})

/-- A fresh tracker with the given configured history cap. -/
def mkTracker (cap : Nat) : Tracker :=
  { maxHistorySize := cap }

/-- Run N context updates with distinguishable user inputs against a fresh
tracker with the given cap. -/
def runUpdates (cap : Nat) (inputs : Nat → String) (N : Nat) : Tracker :=
  applyOps (mkTracker cap) ((List.range N).map (fun i => Op.update (inputs i) "" []))

/-- The inputs used by the eviction witness. -/
def natInputs : Nat → String := fun n => toString n

/-- The unknown-key preference store used by the overflow counterexample. -/
def overflowOp : Op := Op.remember "favorite_color" (JVal.str "red")

/-! Behavior of the retry loop under uniform backend behaviors. -/

/-- When every attempt fails to connect, the retry loop runs all its
attempts and ends by returning the offline mock response. -/
theorem httpLoop_allConnect (now toolName : String) (parameters : JObj)
    (net : Nat → Attempt) (hnet : ∀ i, net i = Attempt.connectError) :
    ∀ fuel, 0 < fuel → ∀ i,
      httpLoop now toolName parameters net fuel i =
        (.ok (some (handleOfflineServer now toolName parameters)), i + fuel) := by
  intro fuel
  induction fuel with
  | zero => omega
  | succ f ih =>
      intro _ i
      rw [httpLoop, hnet i]
      by_cases hf : f = 0
      · subst hf; simp
      · simp only [if_neg hf]
        rw [ih (Nat.pos_of_ne_zero hf) (i + 1)]
        have : i + 1 + f = i + (f + 1) := by omega
        rw [this]

/-- When every attempt gets a response with a fixed status that is neither
2xx nor 404, raise_for_status raises each time and the final attempt
re-raises the status error. -/
theorem httpLoop_allBadStatus (now toolName : String) (parameters : JObj)
    (net : Nat → Attempt) (s : Nat) (bodies : Nat → JObj)
    (hnet : ∀ i, net i = Attempt.response s (bodies i))
    (hs : s < 200 ∨ 300 ≤ s) (h404 : s ≠ 404) :
    ∀ fuel, 0 < fuel → ∀ i,
      httpLoop now toolName parameters net fuel i = (.err (statusErrorMsg s), i + fuel) := by
  intro fuel
  induction fuel with
  | zero => omega
  | succ f ih =>
      intro _ i
      have h200 : s ≠ 200 := by omega
      have h2xx : ¬(200 ≤ s ∧ s < 300) := by omega
      rw [httpLoop, hnet i]
      simp only [if_neg h200, if_neg h404, if_neg h2xx]
      by_cases hf : f = 0
      · subst hf; simp
      · simp only [if_neg hf]
        rw [ih (Nat.pos_of_ne_zero hf) (i + 1)]
        have : i + 1 + f = i + (f + 1) := by omega
        rw [this]

/-- When every attempt gets a response with a fixed 2xx status other than
200, no branch of the loop body returns or raises: raise_for_status passes
silently, every attempt is consumed, and the loop falls through returning
Python None. -/
theorem httpLoop_all2xxNot200 (now toolName : String) (parameters : JObj)
    (net : Nat → Attempt) (s : Nat) (bodies : Nat → JObj)
    (hnet : ∀ i, net i = Attempt.response s (bodies i))
    (hlo : 200 ≤ s) (hhi : s < 300) (h200 : s ≠ 200) :
    ∀ fuel i, httpLoop now toolName parameters net fuel i = (.ok none, i + fuel) := by
  intro fuel
  induction fuel with
  | zero => intro i; rw [httpLoop, Nat.add_zero]
  | succ f ih =>
      intro i
      have h404 : s ≠ 404 := by omega
      have h2xx : 200 ≤ s ∧ s < 300 := ⟨hlo, hhi⟩
      rw [httpLoop, hnet i]
      simp only [if_neg h200, if_neg h404, if_pos h2xx]
      rw [ih (i + 1)]
      have : i + 1 + f = i + (f + 1) := by omega
      rw [this]

/-- C1. For every dispatch of set_temperature with temperature 24 against a
backend whose connection fails on every attempt, execute_tool exhausts the
configured number of retry attempts (any positive count, default 3) and
returns the fixed mock-table payload: a fabricated success with
success = true, mock = true and current_temperature = 24, rather than an
error. -/
theorem execute_tool_offline_mock_fallback (now : String) (r : Nat)
    (net : Nat → Attempt) (hr : 0 < r) (hnet : ∀ i, net i = Attempt.connectError) :
    executeTool now r net "set_temperature" [("temperature", JVal.num 24)] =
      (some (handleOfflineServer now "set_temperature" [("temperature", JVal.num 24)]), r) ∧
    lookupJ (handleOfflineServer now "set_temperature" [("temperature", JVal.num 24)]) "success"
      = some (JVal.bool true) ∧
    lookupJ (handleOfflineServer now "set_temperature" [("temperature", JVal.num 24)]) "mock"
      = some (JVal.bool true) ∧
    lookupJ (handleOfflineServer now "set_temperature" [("temperature", JVal.num 24)]) "current_temperature"
      = some (JVal.num 24) := by
  refine ⟨?_, rfl, rfl, rfl⟩
  have hmap : lookupStr toolServerMap "set_temperature" = some "sim_actions" := rfl
  rw [executeTool, hmap]
  rw [makeHttpRequest,
    httpLoop_allConnect now "set_temperature" [("temperature", JVal.num 24)] net hnet r hr 0]
  simp

/-- C1 witness: the default three retries against a permanently failing
connection yield the mock payload. -/
theorem execute_tool_offline_mock_fallback_witness :
    executeTool "" 3 netDown "set_temperature" [("temperature", JVal.num 24)] =
      (some (handleOfflineServer "" "set_temperature" [("temperature", JVal.num 24)]), 3) ∧
    lookupJ (handleOfflineServer "" "set_temperature" [("temperature", JVal.num 24)]) "success"
      = some (JVal.bool true) ∧
    lookupJ (handleOfflineServer "" "set_temperature" [("temperature", JVal.num 24)]) "mock"
      = some (JVal.bool true) ∧
    lookupJ (handleOfflineServer "" "set_temperature" [("temperature", JVal.num 24)]) "current_temperature"
      = some (JVal.num 24) :=
  execute_tool_offline_mock_fallback "" 3 netDown (by decide) (fun _ => rfl)

/-- C5. For every tool name missing from the tool-to-backend mapping and
every parameter dict, execute_tool fails immediately: it returns the error
dict of the caught ValueError, whose success field is false and whose error
message says the tool was not found, and zero HTTP attempts are made. -/
theorem execute_tool_unknown_tool (now : String) (r : Nat) (net : Nat → Attempt)
    (toolName : String) (parameters : JObj)
    (h : lookupStr toolServerMap toolName = none) :
    executeTool now r net toolName parameters =
      (some (executeErrorDict (toolNotFoundMsg toolName) toolName parameters), 0) ∧
    lookupJ (executeErrorDict (toolNotFoundMsg toolName) toolName parameters) "success"
      = some (JVal.bool false) ∧
    lookupJ (executeErrorDict (toolNotFoundMsg toolName) toolName parameters) "error"
      = some (JVal.str ("Tool " ++ toolName ++ " not found in any MCP server")) := by
  refine ⟨?_, rfl, rfl⟩
  rw [executeTool, h]

/-- C5 witness: dispatching nonexistent_tool makes no HTTP attempt and
reports the not-found failure. -/
theorem execute_tool_unknown_tool_witness :
    executeTool "" 3 netDown "nonexistent_tool" [] =
      (some (executeErrorDict (toolNotFoundMsg "nonexistent_tool") "nonexistent_tool" []), 0) ∧
    lookupJ (executeErrorDict (toolNotFoundMsg "nonexistent_tool") "nonexistent_tool" []) "success"
      = some (JVal.bool false) ∧
    lookupJ (executeErrorDict (toolNotFoundMsg "nonexistent_tool") "nonexistent_tool" []) "error"
      = some (JVal.str ("Tool nonexistent_tool not found in any MCP server")) :=
  execute_tool_unknown_tool "" 3 netDown "nonexistent_tool" [] rfl

/-- C6 counterexample. The claim says any 2xx status returns the JSON body.
Against a backend answering 201 with body the dict with key "ok", the
dispatch of a mapped tool does not return that body: the attempt loop falls
through every retry and execute_tool returns Python None. -/
theorem execute_tool_2xx_not_returned :
    (executeTool "" 3 net201 "set_temperature" []).1 ≠ some [("ok", JVal.bool true)] := by
  have h : (executeTool "" 3 net201 "set_temperature" []).1 = none := rfl
  rw [h]
  exact fun hc => Option.noConfusion hc

/-- C6 amended. Only a response with status exactly 200 returns the JSON
body (on the first attempt it is returned immediately); a 2xx status other
than 200 passes raise_for_status silently on every attempt, so the loop
falls through all retries and execute_tool yields no payload (Python None);
a 404 returns the mock-table fallback at once; and any other non-2xx status
raises, is re-raised after the retries are exhausted, and becomes a caught
error dict with success = false. -/
theorem execute_tool_status_handling (now : String) (r : Nat) (net : Nat → Attempt)
    (toolName srv : String) (parameters : JObj) (hr : 0 < r)
    (hmap : lookupStr toolServerMap toolName = some srv) :
    (∀ body, net 0 = Attempt.response 200 body →
      executeTool now r net toolName parameters = (some body, 1)) ∧
    (∀ body, net 0 = Attempt.response 404 body →
      executeTool now r net toolName parameters =
        (some (handleOfflineServer now toolName parameters), 1)) ∧
    (∀ (s : Nat) (bodies : Nat → JObj), (∀ i, net i = Attempt.response s (bodies i)) →
      s < 200 ∨ 300 ≤ s → s ≠ 404 →
      executeTool now r net toolName parameters =
        (some (executeErrorDict (statusErrorMsg s) toolName parameters), r)) ∧
    (∀ (s : Nat) (bodies : Nat → JObj), (∀ i, net i = Attempt.response s (bodies i)) →
      200 ≤ s → s < 300 → s ≠ 200 →
      executeTool now r net toolName parameters = (none, r)) := by
  obtain ⟨f, rfl⟩ : ∃ f, r = f + 1 := ⟨r - 1, by omega⟩
  refine ⟨?_, ?_, ?_, ?_⟩
  · intro body h0
    rw [executeTool, hmap, makeHttpRequest, httpLoop, h0]
    simp
  · intro body h0
    rw [executeTool, hmap, makeHttpRequest, httpLoop, h0]
    simp
  · intro s bodies hnet hs h404
    rw [executeTool, hmap, makeHttpRequest,
      httpLoop_allBadStatus now toolName parameters net s bodies hnet hs h404 (f + 1) hr 0]
    simp
  · intro s bodies hnet hlo hhi h200
    rw [executeTool, hmap, makeHttpRequest,
      httpLoop_all2xxNot200 now toolName parameters net s bodies hnet hlo hhi h200 (f + 1) 0]
    simp

/-- C6 witness: the four status behaviors at concrete backends — 200 returns
the body in one attempt, 404 returns the mock at once, 500 becomes an error
dict after the three retries, and 201 yields no payload after the three
retries. -/
theorem execute_tool_status_handling_witness :
    executeTool "" 3 net200 "set_temperature" [] = (some [("ok", JVal.bool true)], 1) ∧
    executeTool "" 3 net404 "set_temperature" [] =
      (some (handleOfflineServer "" "set_temperature" []), 1) ∧
    executeTool "" 3 net500 "set_temperature" [] =
      (some (executeErrorDict (statusErrorMsg 500) "set_temperature" []), 3) ∧
    executeTool "" 3 net201 "set_temperature" [] = (none, 3) :=
  ⟨(execute_tool_status_handling "" 3 net200 "set_temperature" "sim_actions" []
      (by decide) rfl).1 [("ok", JVal.bool true)] rfl,
   (execute_tool_status_handling "" 3 net404 "set_temperature" "sim_actions" []
      (by decide) rfl).2.1 [] rfl,
   (execute_tool_status_handling "" 3 net500 "set_temperature" "sim_actions" []
      (by decide) rfl).2.2.1 500 (fun _ => []) (fun _ => rfl) (by omega) (by decide),
   (execute_tool_status_handling "" 3 net201 "set_temperature" "sim_actions" []
      (by decide) rfl).2.2.2 201 (fun _ => [("ok", JVal.bool true)]) (fun _ => rfl)
      (by omega) (by omega) (by decide)⟩

/-! Intent classification and parameter extraction claims. -/

/-- C4. For every input whose lower-cased form matches zero patterns of
every intent in the pattern table, classification returns the conversation
intent with confidence exactly 0.1. Classification is a total function of
the input, so it returns a result and never throws for every input. -/
theorem classify_unmatched_conversation (input : String)
    (h : intentPatterns.all
      (fun p => p.2.all (fun rx => !(Rx.rsearch rx (pyLower input).toList))) = true) :
    (classifyIntent input).intent_type = IntentType.conversation ∧
    (classifyIntent input).confidence = 1/10 := by
  have key : ∀ l : List Char,
      (intentPatterns.all (fun p => p.2.all (fun rx => !(Rx.rsearch rx l)))) = true →
      intentScores l = [] := by
    intro l hl
    rw [intentScores, List.filterMap_eq_nil_iff]
    intro p hp
    have hall := (List.all_eq_true.mp hl) p hp
    have hcount : p.2.countP (fun rx => Rx.rsearch rx l) = 0 := by
      rw [List.countP_eq_zero]
      intro rx hrx
      simpa using (List.all_eq_true.mp hall) rx hrx
    simp [hcount]
  have hs : intentScores (pyLower input).toList = [] := key _ h
  simp only [classifyIntent]
  rw [hs]
  exact ⟨rfl, rfl⟩

/-- C4 witness: the empty input matches no pattern and classifies as
conversation with confidence 0.1. -/
theorem classify_unmatched_conversation_witness :
    (classifyIntent "").intent_type = IntentType.conversation ∧
    (classifyIntent "").confidence = 1/10 :=
  classify_unmatched_conversation "" (by decide)

/-- C2. For every input whose lower-cased form contains cold or cool and in
which the temperature-value regex finds no number followed by degree(s) or
a degree mark, the parameter extractor under the temperature_control intent
returns exactly the mapping direction = decrease, while the action
predictor on the same input and intent returns increase_temperature: the
two code paths produce these literal, mutually inconsistent outputs. -/
theorem temperature_extractor_vs_predictor (input : String)
    (hcc : containsSub "cold".toList (pyLower input).toList = true ∨
      containsSub "cool".toList (pyLower input).toList = true)
    (hnum : Rx.rsearch tempValueRx (pyLower input).toList = false) :
    extractParameters input IntentType.temperature_control =
      [("direction", JVal.str "decrease")] ∧
    predictAction input IntentType.temperature_control = "increase_temperature" := by
  have hany : containsAny (pyLower input).toList ["cold", "cool", "cooler"] = true := by
    rw [containsAny, List.any_eq_true]
    rcases hcc with h | h
    · exact ⟨"cold", by simp, h⟩
    · exact ⟨"cool", by simp, h⟩
  have hany2 : containsAny (pyLower input).toList ["cold", "cool"] = true := by
    rw [containsAny, List.any_eq_true]
    rcases hcc with h | h
    · exact ⟨"cold", by simp, h⟩
    · exact ⟨"cool", by simp, h⟩
  constructor
  · simp only [extractParameters]
    rw [hnum, hany]
    simp
  · simp only [predictAction]
    rw [hany2]
    simp

/-- C2 witness: on the input i am cold the extractor answers
direction = decrease and the predictor answers increase_temperature. -/
theorem temperature_extractor_vs_predictor_witness :
    extractParameters "i am cold" IntentType.temperature_control =
      [("direction", JVal.str "decrease")] ∧
    predictAction "i am cold" IntentType.temperature_control = "increase_temperature" :=
  temperature_extractor_vs_predictor "i am cold" (Or.inl (by decide)) (by decide)

/-! State store claims. -/

/-- C7. Applying a successful open_window tool result with arguments
side = left and action = open to any state produces exactly the state with
windows_left set to open — windows_right and every other environment field
unchanged — and reports state_changed = true. -/
theorem open_window_left_frame (st : EnvironmentState) :
    updateStateFromTool "open_window"
        [("side", JVal.str "left"), ("action", JVal.str "open")] [] st =
      ({ st with windows_left := JVal.str "open" }, true) := rfl

/-- C10. Applying a successful set_temperature result whose arguments carry
temperature 0 and whose result dict is empty leaves the whole state (hence
environment.temperature) unchanged and reports state_changed = false: the
or-chain treats the falsy 0 as absent and the truthiness guard rejects the
update. -/
theorem set_temperature_zero_dropped (st : EnvironmentState) :
    updateStateFromTool "set_temperature" [("temperature", JVal.num 0)] [] st =
      (st, false) := rfl

/-- C9 (code bug): the window-control parameter extractor produces
action = close for the input close the left window, and applying the
resulting open_window call to the default state writes the literal string
close into windows_left, which is outside the enum open | closed | partial
documented in the dataclass itself. -/
theorem windows_enum_violation :
    extractParameters "close the left window" IntentType.window_control =
      [("side", JVal.str "left"), ("action", JVal.str "close")] ∧
    (updateStateFromTool "open_window"
        [("side", JVal.str "left"), ("action", JVal.str "close")] [] {}).1.windows_left =
      JVal.str "close" ∧
    windowEnumOK (JVal.str "close") = false :=
  ⟨rfl, rfl, rfl⟩

/-- Decoding the encoded artists list is the identity. -/
theorem decodeStrList_map (l : List String) :
    decodeStrList (l.map JVal.str) = some l := by
  induction l with
  | nil => rfl
  | cons a t ih =>
      rw [List.map_cons]
      simp only [decodeStrList]
      rw [ih]

/-- Loading the serialized EnvironmentState restores it field by field.
The hypothesis excludes the unreachable value where current_track holds a
literal JSON null (the source only assigns truthy track values). -/
theorem envFromDict_envToDict (e : EnvironmentState)
    (h : e.current_track ≠ some JVal.null) :
    envFromDict (envToDict e) = some e := by
  obtain ⟨temp, mp, ct, wl, wr, sp, loc, lat, lon, spd, wc, wt, tod⟩ := e
  cases ct with
  | none => rfl
  | some v =>
      cases v with
      | null => exact absurd rfl h
      | bool b => rfl
      | num q => rfl
      | str s => rfl
      | arr l => rfl
      | obj l => rfl

/-- Loading the serialized UserPreferences restores it field by field. -/
theorem prefsFromDict_prefsToDict (p : UserPreferences) :
    prefsFromDict (prefsToDict p) = some p := by
  obtain ⟨pt, genre, artists, lang, tts, vr⟩ := p
  cases genre with
  | none =>
      have hred : prefsFromDict (prefsToDict ⟨pt, none, artists, lang, tts, vr⟩) =
          (decodeStrList (artists.map JVal.str)).bind
            (fun arts => some ⟨pt, none, arts, lang, tts, vr⟩) := rfl
      rw [hred, decodeStrList_map]
      rfl
  | some g =>
      have hred : prefsFromDict (prefsToDict ⟨pt, some g, artists, lang, tts, vr⟩) =
          (decodeStrList (artists.map JVal.str)).bind
            (fun arts => some ⟨pt, some g, arts, lang, tts, vr⟩) := rfl
      rw [hred, decodeStrList_map]
      rfl

/-- Truthy values are never the JSON null. -/
theorem truthy_ne_null (v : JVal) (hv : truthy v = true) : v ≠ JVal.null := by
  intro h
  subst h
  simp [truthy] at hv

set_option maxHeartbeats 1000000 in
/-- The reachability invariant behind the round-trip hypothesis: the only
writer of current_track stores a truthy value, so a state whose
current_track is not a literal JSON null can never acquire one through
tool-result application. -/
theorem updateStateFromTool_track_wf (toolName : String) (args result : JObj)
    (st : EnvironmentState) (h : st.current_track ≠ some JVal.null) :
    (updateStateFromTool toolName args result st).1.current_track ≠ some JVal.null := by
  simp only [updateStateFromTool]
  split_ifs <;> try exact h
  all_goals try (split <;> exact h)
  all_goals
    intro hc
    exact truthy_ne_null _ (by assumption) (Option.some.inj hc)

/-- C8. For every state store whose environment satisfies the reachability
invariant on current_track, saving the state to the snapshot file and
loading that snapshot into a fresh store restores an EnvironmentState and
UserPreferences equal field by field to the originals. -/
theorem state_roundtrip (t : Tracker) (h : t.environment.current_track ≠ some JVal.null) :
    (loadState (saveData t) {}).environment = t.environment ∧
    (loadState (saveData t) {}).preferences = t.preferences := by
  have he := envFromDict_envToDict t.environment h
  have hp := prefsFromDict_prefsToDict t.preferences
  simp only [loadState, saveData]
  rw [he, hp]
  exact ⟨rfl, rfl⟩

/-- C8 witness: the round trip restores a concrete populated store. -/
theorem state_roundtrip_witness :
    (loadState (saveData sampleTracker) {}).environment = sampleTracker.environment ∧
    (loadState (saveData sampleTracker) {}).preferences = sampleTracker.preferences :=
  state_roundtrip sampleTracker (fun hc => JVal.noConfusion (Option.some.inj hc))

/-! Context history cap claims. -/

/-- One append-then-trim step of the history turns the last-cap suffix of L
into the last-cap suffix of L with one more element. -/
theorem trim_step {α : Type} (cap n : Nat) (hcap : 0 < cap) (L : List α) (e : α)
    (hL : L.length = n) :
    (if (L.drop (n - cap) ++ [e]).length > cap
     then (L.drop (n - cap) ++ [e]).drop ((L.drop (n - cap) ++ [e]).length - cap)
     else L.drop (n - cap) ++ [e]) = (L ++ [e]).drop (n + 1 - cap) := by
  have hdl : (L.drop (n - cap)).length = n - (n - cap) := by
    rw [List.length_drop, hL]
  have hcomb : L.drop (n - cap) ++ [e] = (L ++ [e]).drop (n - cap) :=
    (List.drop_append_of_le_length (by omega)).symm
  have hlen : (L.drop (n - cap) ++ [e]).length = n - (n - cap) + 1 := by
    rw [List.length_append, hdl]
    rfl
  by_cases hn : n < cap
  · have h1 : n - cap = 0 := by omega
    have h2 : n + 1 - cap = 0 := by omega
    rw [if_neg (by omega), h1, h2]
    simp
  · rw [if_pos (by omega), hlen, hcomb]
    rw [List.drop_drop]
    congr 1
    omega

/-- The environment is untouched by a context update carrying no tool
results. -/
theorem updateContext_empty_env (t : Tracker) (u : String) :
    (updateContext t u "" []).1.environment = t.environment := rfl

/-- The configured cap is untouched by a context update. -/
theorem updateContext_empty_cap (t : Tracker) (u : String) :
    (updateContext t u "" []).1.maxHistorySize = t.maxHistorySize := rfl

/-- A context update with no tool results appends one interaction entry and
trims the history to the cap. -/
theorem updateContext_empty_history (t : Tracker) (u : String) :
    (updateContext t u "" []).1.history =
      (if (t.history ++ [HEntry.interaction u "" [] (envToDict t.environment)]).length > t.maxHistorySize
       then List.drop
         ((t.history ++ [HEntry.interaction u "" [] (envToDict t.environment)]).length - t.maxHistorySize)
         (t.history ++ [HEntry.interaction u "" [] (envToDict t.environment)])
       else t.history ++ [HEntry.interaction u "" [] (envToDict t.environment)]) := rfl

/-- Running N context updates from a fresh tracker leaves the environment
and the cap unchanged and keeps exactly the last min(N, cap) interaction
entries: the history is the (N - cap)-drop of the full entry sequence. -/
theorem runUpdates_spec (cap : Nat) (hcap : 0 < cap) (inputs : Nat → String) :
    ∀ N, (runUpdates cap inputs N).environment = {} ∧
      (runUpdates cap inputs N).maxHistorySize = cap ∧
      (runUpdates cap inputs N).history =
        ((List.range N).map (fun i => updEntry (inputs i))).drop (N - cap) := by
  intro N
  induction N with
  | zero =>
      refine ⟨rfl, rfl, ?_⟩
      simp [runUpdates, applyOps, mkTracker]
  | succ n ih =>
      obtain ⟨ihenv, ihcap, ihhist⟩ := ih
      have hstep : runUpdates cap inputs (n + 1) =
          (updateContext (runUpdates cap inputs n) (inputs n) "" []).1 := by
        rw [runUpdates, runUpdates, List.range_succ, List.map_append, applyOps, applyOps,
          List.foldl_append]
        rfl
      rw [hstep]
      refine ⟨?_, ?_, ?_⟩
      · rw [updateContext_empty_env]
        exact ihenv
      · rw [updateContext_empty_cap]
        exact ihcap
      · rw [updateContext_empty_history, ihenv, ihcap, ihhist]
        rw [List.range_succ, List.map_append]
        have hLlen : ((List.range n).map (fun i => updEntry (inputs i))).length = n := by
          rw [List.length_map, List.length_range]
        simpa [updEntry] using trim_step cap n hcap
          ((List.range n).map (fun i => updEntry (inputs i))) (updEntry (inputs n)) hLlen

/-- Distinct user inputs yield distinct interaction entries. -/
theorem updEntry_injective : Function.Injective updEntry := by
  intro a b hab
  simp only [updEntry, HEntry.interaction.injEq] at hab
  exact hab.1

/-- C3 amended. For sequences of context updates, the history never exceeds
the configured cap and the oldest entries are evicted first: after N
updates the history is exactly the last min(N, cap) entries, its length is
at most cap, and with pairwise-distinct inputs the entry of update i is
absent once i < N - cap. (Preference stores with unknown keys append
without trimming and can exceed the cap; see the counterexample.) -/
theorem context_history_cap_eviction (cap : Nat) (hcap : 0 < cap)
    (inputs : Nat → String) (N : Nat) :
    (runUpdates cap inputs N).history =
      ((List.range N).map (fun i => updEntry (inputs i))).drop (N - cap) ∧
    (runUpdates cap inputs N).history.length ≤ cap ∧
    (∀ i, i < N - cap → ((List.range N).map inputs).Nodup →
      updEntry (inputs i) ∉ (runUpdates cap inputs N).history) := by
  obtain ⟨-, -, hh⟩ := runUpdates_spec cap hcap inputs N
  refine ⟨hh, ?_, ?_⟩
  · rw [hh, List.length_drop, List.length_map, List.length_range]
    omega
  · intro i hi hnd hmem
    rw [hh] at hmem
    have htake : updEntry (inputs i) ∈
        ((List.range N).map (fun j => updEntry (inputs j))).take (N - cap) := by
      have h1 : (List.range N).take (N - cap) = List.range (N - cap) := by
        rw [List.take_range]
        congr 1
        omega
      rw [← List.map_take, h1]
      exact List.mem_map.mpr ⟨i, List.mem_range.mpr hi, rfl⟩
    have hnd2 : ((List.range N).map (fun j => updEntry (inputs j))).Nodup := by
      have : ((List.range N).map inputs).map updEntry =
          (List.range N).map (fun j => updEntry (inputs j)) := by
        rw [List.map_map]
        rfl
      rw [← this]
      exact hnd.map updEntry_injective
    have hsplit := List.take_append_drop (N - cap)
      ((List.range N).map (fun j => updEntry (inputs j)))
    rw [← hsplit] at hnd2
    exact List.disjoint_of_nodup_append hnd2 htake hmem

/-- C3 amended witness: with cap 2 and three updates, the history holds at
most two entries and the first entry has been evicted. -/
theorem context_history_cap_eviction_witness :
    (runUpdates 2 natInputs 3).history.length ≤ 2 ∧
    updEntry (natInputs 0) ∉ (runUpdates 2 natInputs 3).history :=
  ⟨(context_history_cap_eviction 2 (by decide) natInputs 3).2.1,
   (context_history_cap_eviction 2 (by decide) natInputs 3).2.2 0 (by decide) (by decide)⟩

set_option maxRecDepth 100000 in
/-- C3 counterexample. The claim quantifies over all sequences of context
updates and preference stores, but remember_preference appends unknown-key
entries to the history without trimming: 101 such stores against the
default cap of 100 leave 101 entries in the history. -/
theorem context_history_cap_overflow :
    ({ } : Tracker).maxHistorySize = 100 ∧
    (applyOps { } (List.replicate 101 overflowOp)).history.length = 101 :=
  ⟨rfl, by decide⟩

end Caesar
